import Mathlib

/-!
Verification development for the lamar-frontend submission/confirmation core.

The definitions below are a shallow embedding of:
  * `createPatientOrder` and `downloadCarePlan` from `src/lib/api.ts`
    (the response-classification algorithm),
  * the error-handling path of `mutate` and `downloadCarePlanFile` from
    `src/hooks/useCreatePatientOrder.ts` (presentation-hint selection),
  * `submitForm`, `handleConfirmProceed` and `handleCancel` from the
    `CarePlanForm` component (submission orchestration).

JavaScript runtime features are made explicit: possibly-absent JSON fields
become `Option`, truthiness checks (`x && y`, `x || y`) become explicit
matches on `Option`/empty strings, and the union-typed `detail` field of a
response body becomes an inductive with one constructor per runtime shape
(`typeof` string / `Array.isArray` / plain object).
-/

/-- Decides whether `pat` is a prefix of the character list `l`,
mirroring the character-by-character comparison JavaScript performs
during `String.prototype.includes`. -/
def prefixAux : List Char → List Char → Bool
  | [], _ => true
  | _ :: _, [] => false
  | a :: as, b :: bs => a == b && prefixAux as bs

/-- Substring occurrence on character lists: does `pat` occur in `l`? -/
def includesAux (pat : List Char) : List Char → Bool
  | [] => prefixAux pat []
  | l@(_ :: rest) => prefixAux pat l || includesAux pat rest

/-- Models JavaScript `s.includes(pat)`: substring containment. -/
def strIncludes (s pat : String) : Bool :=
  includesAux pat.data s.data

/-- ASCII lowercasing of one character, as `String.prototype.toLowerCase`
performs on the ASCII range (the only range the source compares against). -/
def lcChar (c : Char) : Char :=
  if 65 ≤ c.toNat ∧ c.toNat ≤ 90 then Char.ofNat (c.toNat + 32) else c

/-- Models JavaScript `s.toLowerCase()` on the ASCII range. -/
def lowerStr (s : String) : String :=
  String.mk (s.data.map lcChar)

/-- Models JavaScript `a || b` for a string `a` that is present:
an empty string is falsy and falls through to `b`. -/
def jsOrStr (a b : String) : String :=
  if a = "" then b else a

/-- Models JavaScript `a || b` for a possibly-absent string `a`:
`undefined`, `null` and `""` are falsy and fall through to `b`. -/
def jsOr (a : Option String) (b : String) : String :=
  match a with
  | some s => jsOrStr s b
  | none => b

/-- One segment of a validation-error `loc` path; the wire contract allows
strings and integers (`loc: (string | number)[]` in `src/lib/api.ts`). -/
inductive LocSeg where
  | strSeg (v : String)
  | natSeg (v : Int)
deriving DecidableEq

/-- How JavaScript `Array.prototype.join` renders one `loc` segment. -/
def locSegToString : LocSeg → String
  | .strSeg v => v
  | .natSeg v => toString v

/-- The `ValidationError` interface of `src/lib/api.ts`. -/
structure ValidationError where
  type : String
  loc : List LocSeg
  msg : String
deriving DecidableEq

/-- The `patient` sub-issue of `ConfirmationIssues` (`src/lib/api.ts`). -/
structure PatientIssue where
  existing_name : String
  submitted_name : String
  mrn : String
deriving DecidableEq

/-- The `provider` sub-issue of `ConfirmationIssues` (`src/lib/api.ts`). -/
structure ProviderIssue where
  existing_name : String
  submitted_name : String
  npi : String
deriving DecidableEq

/-- The `order` sub-issue of `ConfirmationIssues` (`src/lib/api.ts`). -/
structure OrderIssue where
  medication_name : String
  existing_order_id : Int
deriving DecidableEq

/-- The `ConfirmationIssues` interface: three optional sub-issues. -/
structure ConfirmationIssues where
  patient : Option PatientIssue := none
  provider : Option ProviderIssue := none
  order : Option OrderIssue := none
deriving DecidableEq

/-- The `ConfirmationError` interface of `src/lib/api.ts`. -/
structure ConfirmationError where
  requires_confirmation : Bool
  issues : ConfirmationIssues
deriving DecidableEq

/-- The runtime shapes the response body's `detail` field can take:
a string, a validation array, or a plain object (probed by the source via
`typeof`/`Array.isArray` before being cast to `ConfirmationError`). -/
inductive DetailVal where
  | strD (v : String)
  | arrD (errs : List ValidationError)
  | objD (requires_confirmation : Option Bool) (issues : Option ConfirmationIssues)
deriving DecidableEq

/-- The parsed JSON body of a `POST /patients` response, with every field
optional, exactly as the source types `data` in `createPatientOrder`. -/
structure Body where
  message : Option String := none
  detail : Option DetailVal := none
  requires_confirmation : Option Bool := none
  issues : Option ConfirmationIssues := none
  patient_id : Option Int := none
  order_id : Option Int := none
deriving DecidableEq

/-- The shape every throw site of `createPatientOrder` constructs:
`{ message, detail? }` where `detail` is a string, a validation array or a
confirmation object (`ApiError` in `src/lib/api.ts`). -/
inductive ErrDetail where
  | strD (v : String)
  | validationD (errs : List ValidationError)
  | confirmationD (c : ConfirmationError)
deriving DecidableEq

/-- The `ApiError` interface of `src/lib/api.ts`. -/
structure ApiError where
  message : String
  detail : Option ErrDetail := none
deriving DecidableEq

/-- Result of `await response.json()`: either a parsed body or a parse
failure (the `catch` around `response.json()`). -/
inductive BodyParse where
  | parsed (b : Body)
  | malformed
deriving DecidableEq

/-- The observable parts of a delivered `fetch` response: status code,
reason phrase, `content-type` header, and the JSON-parse result of the
body. -/
structure HttpResponse where
  status : Nat
  statusText : String
  contentType : Option String
  body : BodyParse
deriving DecidableEq

/-- Result of the `fetch` call itself: either the transport threw (with
the thrown value's `.message` when it was an `Error`), or a response was
delivered. -/
inductive FetchResult where
  | fetchError (errMsg : Option String)
  | response (r : HttpResponse)
deriving DecidableEq

/-- Models `response.ok`: status in the inclusive range 200–299. -/
def respOk (status : Nat) : Bool :=
  200 ≤ status && status ≤ 299

/-- Models `contentType?.includes('application/json')` coerced to a
boolean (`undefined` is falsy). -/
def ctIsJson (ct : Option String) : Bool :=
  match ct with
  | some s => strIncludes s "application/json"
  | none => false

/-- The fixed message of the network-error throw in `createPatientOrder`. -/
def networkErrorMessage : String :=
  "Network error: Unable to reach the server. Please check your connection and ensure the API is running."

/-- The error thrown when `fetch` itself throws (`catch (fetchError)`),
with `detail` set from the thrown value's message when it was an `Error`. -/
def networkError (errMsg : Option String) : ApiError :=
  { message := networkErrorMessage
    detail := some (.strD (errMsg.getD "Unknown network error")) }

/-- The error thrown when `response.json()` fails to parse. -/
def invalidJsonError : ApiError :=
  { message := "Invalid JSON response from server"
    detail := some (.strD "The server returned an unexpected format.") }

/-- The error thrown by the non-JSON branch of `createPatientOrder`:
message by status (404 / ≥500 / generic naming status and reason phrase),
detail naming the received content type. -/
def nonJsonError (r : HttpResponse) : ApiError :=
  let errorMessage :=
    if r.status = 404 then
      "API endpoint not found. Please verify the API URL is correct and the server is running."
    else if r.status ≥ 500 then
      "Server error. Please try again later or contact support."
    else
      "Server error (" ++ toString r.status ++ "): " ++ r.statusText
  { message := errorMessage
    detail := some (.strD ("Received " ++ jsOr r.contentType "unknown content type" ++ " instead of JSON")) }

/-- The message attached to every confirmation-required throw. -/
def confirmationRequiredMessage : String :=
  "Confirmation required before proceeding"

/-- Formats a validation array exactly as the 422 branch does: per entry,
drop the leading `loc` segment, join the rest with `.`, render
`field: msg`, then join the entries with `'; '`. -/
def formatValidationErrors (errs : List ValidationError) : String :=
  String.intercalate "; "
    (errs.map (fun e =>
      String.intercalate "." ((e.loc.drop 1).map locSegToString) ++ ": " ++ e.msg))

/-- The error built by the `!response.ok` branch of `createPatientOrder`
for a parsed JSON body, following the source's branch order: at 422 the
top-level confirmation marker, then the confirmation shape nested in
`detail`, then a validation array, then a string `detail`; at 400 a string
`detail`, then `message`, then a fixed string; otherwise `message || detail`
when `detail` is a string, else `message`, else a synthesized status line. -/
def notOkError (status : Nat) (statusText : String) (b : Body) : ApiError :=
  if status = 422 then
    match b.requires_confirmation, b.issues with
    | some true, some i =>
      { message := confirmationRequiredMessage
        detail := some (.confirmationD { requires_confirmation := true, issues := i }) }
    | _, _ =>
      match b.detail with
      | some (.objD (some true) (some i)) =>
        { message := confirmationRequiredMessage
          detail := some (.confirmationD { requires_confirmation := true, issues := i }) }
      | some (.objD _ _) => { message := "", detail := none }
      | some (.arrD errs) =>
        { message := "Validation error: " ++ formatValidationErrors errs
          detail := some (.validationD errs) }
      | some (.strD s) => { message := s, detail := some (.strD s) }
      | none => { message := "", detail := none }
  else if status = 400 then
    match b.detail with
    | some (.strD s) => { message := s, detail := some (.strD s) }
    | _ =>
      match b.message with
      | some m =>
        if m = "" then { message := "Bad request. Please check your input.", detail := none }
        else { message := m, detail := some (.strD m) }
      | none => { message := "Bad request. Please check your input.", detail := none }
  else
    match b.detail with
    | some (.strD s) => { message := jsOr b.message s, detail := some (.strD s) }
    | _ =>
      match b.message with
      | some m =>
        if m = "" then
          { message := "Request failed with status " ++ toString status
            detail := some (.strD ("HTTP " ++ toString status ++ ": " ++ statusText)) }
        else { message := m, detail := none }
      | none =>
        { message := "Request failed with status " ++ toString status
          detail := some (.strD ("HTTP " ++ toString status ++ ": " ++ statusText)) }

/-- Shallow embedding of `createPatientOrder` (`src/lib/api.ts`): the
transport result is classified in source order — fetch throw, content
type, JSON parse, `response.ok`, then the status-directed error builder.
A successful 2xx JSON response returns the parsed body (the source's cast
`data as PatientOrderResponse` validates nothing). -/
def createPatientOrder (res : FetchResult) : Except ApiError Body :=
  match res with
  | .fetchError m => .error (networkError m)
  | .response r =>
    if ctIsJson r.contentType then
      match r.body with
      | .malformed => .error invalidJsonError
      | .parsed data =>
        if respOk r.status then .ok data
        else .error (notOkError r.status r.statusText data)
    else
      .error (nonJsonError r)

/-- The spec's closed `SubmissionOutcome` taxonomy (spec §3), used only to
state which taxonomy variant a raw transport result falls under. -/
inductive OutcomeClass where
  | success
  | confirmationRequired
  | validationFailed
  | transportFailed
  | requestRejected
  | serverFailed
deriving DecidableEq

/-- Modelled from the spec: the classification steps of §4.1 in their
stated priority order (transport failure, non-JSON body by status, parse
failure, 2xx success, then at 422 the confirmation marker probed top-level
and nested in `detail` before the validation array, then the remaining
non-2xx statuses). Spec-side abstraction for refinement statements; the
code-side classifier is `createPatientOrder`. -/
def specOutcomeClass (res : FetchResult) : OutcomeClass :=
  match res with
  | .fetchError _ => .transportFailed
  | .response r =>
    if ctIsJson r.contentType = false then
      if r.status = 404 then .transportFailed
      else if r.status ≥ 500 then .serverFailed
      else .requestRejected
    else
      match r.body with
      | .malformed => .transportFailed
      | .parsed b =>
        if respOk r.status then .success
        else if r.status = 422 then
          match b.requires_confirmation, b.issues with
          | some true, some _ => .confirmationRequired
          | _, _ =>
            match b.detail with
            | some (.objD (some true) (some _)) => .confirmationRequired
            | some (.arrD _) => .validationFailed
            | _ => .requestRejected
        else .requestRejected

/-- What the hook's catch block in `useCreatePatientOrder.mutate` does
with a thrown `ApiError`: either store a confirmation error (triggering
the modal), or store a message and raise one toast. -/
inductive HookOutcome where
  | confirmationSet (c : ConfirmationError)
  | errorShown (stored : String) (title : String) (description : String)
deriving DecidableEq

/-- The fallback message of the hook's catch block. -/
def fallbackErrorMessage : String :=
  "An error occurred while submitting the form."

/-- The toast selection of `useCreatePatientOrder.mutate`, from the
lowercased stored message: duplicate markers first (`duplicate`,
`already exists`, `mrn`), then connection markers, then `validation
error`, else the generic submission-failed toast. Returns the toast's
title and description. -/
def selectToast (errorMessage : String) : String × String :=
  let normalizedMessage := lowerStr errorMessage
  if strIncludes normalizedMessage "duplicate"
      || strIncludes normalizedMessage "already exists"
      || strIncludes normalizedMessage "mrn" then
    ("Duplicate Entry Detected",
      if strIncludes errorMessage "MRN" then errorMessage
      else "A record with this information already exists. " ++ errorMessage)
  else if strIncludes normalizedMessage "network error"
      || strIncludes normalizedMessage "endpoint not found" then
    ("Connection Error", errorMessage)
  else if strIncludes normalizedMessage "validation error" then
    ("Validation Error", errorMessage)
  else
    ("Submission Failed", errorMessage)

/-- The hook's error handling in `mutate`: a non-array object `detail`
carrying a truthy confirmation marker (its `issues` field is an object and
hence truthy) becomes a stored confirmation error; every other `ApiError`
stores its message (falling back to a fixed string when empty) and raises
the toast chosen by `selectToast`. -/
def handleMutateError (e : ApiError) : HookOutcome :=
  let confirmationCase :=
    match e.detail with
    | some (.confirmationD c) => if c.requires_confirmation then some c else none
    | _ => none
  match confirmationCase with
  | some c => .confirmationSet c
  | none =>
    let errorMessage := if e.message = "" then fallbackErrorMessage else e.message
    .errorShown errorMessage (selectToast errorMessage).1 (selectToast errorMessage).2

/-- The values collected by the form (`FormData` in the `CarePlanForm`
component): strings plus the two growable lists. -/
structure FormData where
  first_name : String
  last_name : String
  mrn : String
  primary_diagnosis : String
  additional_diagnoses : List String
  records_text : String
  referring_provider : String
  provider_npi : String
  medication_name : String
  medication_history : List String
deriving DecidableEq

/-- The `PatientOrderPayload` interface as `submitForm` populates it:
optional lists are omitted when empty, and the three override flags are
always set explicitly. -/
structure PatientOrderPayload where
  first_name : String
  last_name : String
  referring_provider : String
  provider_npi : String
  mrn : String
  primary_diagnosis : String
  additional_diagnoses : Option (List String)
  medication_name : String
  medication_history : Option (List String)
  records_text : String
  confirm_patient_name_mismatch : Bool
  confirm_provider_name_mismatch : Bool
  confirm_duplicate_order : Bool
deriving DecidableEq

/-- The payload construction inside `submitForm` (`CarePlanForm`):
field-for-field copy of the form data, empty lists sent as omitted,
`records_text || ''`, and the three flags as passed. -/
def buildPayload (data : FormData)
    (confirmPatientMismatch confirmProviderMismatch confirmDuplicateOrder : Bool) :
    PatientOrderPayload :=
  { first_name := data.first_name
    last_name := data.last_name
    referring_provider := data.referring_provider
    provider_npi := data.provider_npi
    mrn := data.mrn
    primary_diagnosis := data.primary_diagnosis
    additional_diagnoses :=
      if data.additional_diagnoses.length > 0 then some data.additional_diagnoses else none
    medication_name := data.medication_name
    medication_history :=
      if data.medication_history.length > 0 then some data.medication_history else none
    records_text := jsOrStr data.records_text ""
    confirm_patient_name_mismatch := confirmPatientMismatch
    confirm_provider_name_mismatch := confirmProviderMismatch
    confirm_duplicate_order := confirmDuplicateOrder }

/-- A payload with its three override flags forced back to false; equality
under `eraseFlags` says two payloads agree on every non-flag field. -/
def eraseFlags (p : PatientOrderPayload) : PatientOrderPayload :=
  { p with
    confirm_patient_name_mismatch := false
    confirm_provider_name_mismatch := false
    confirm_duplicate_order := false }

/-- `handleConfirmProceed` (`CarePlanForm`): when a confirmation error is
stored, read the current form data, derive each override flag from the
presence of the corresponding sub-issue (`!!issues.patient` and friends),
and resubmit once; otherwise do nothing. The returned list is the
sequence of payloads sent to the order endpoint by this action. -/
def handleConfirmProceed (confirmationError : Option ConfirmationError)
    (formData : FormData) : List PatientOrderPayload :=
  match confirmationError with
  | some ce =>
    let issues := ce.issues
    let confirmPatient := issues.patient.isSome
    let confirmProvider := issues.provider.isSome
    let confirmOrder := issues.order.isSome
    [buildPayload formData confirmPatient confirmProvider confirmOrder]
  | none => []

/-- The orchestration state `handleCancel` can observe: the stored
confirmation error, the entered form values, and the stored error
message. -/
structure OrchestratorState where
  confirmationError : Option ConfirmationError
  formData : FormData
  error : Option String
deriving DecidableEq

/-- `handleCancel` (`CarePlanForm`): its body is exactly
`setConfirmationError(null)` — clear the stored confirmation issues,
touch nothing else, send nothing. The second component is the sequence
of payloads sent to the order endpoint by this action. -/
def handleCancel (s : OrchestratorState) : OrchestratorState × List PatientOrderPayload :=
  ({ s with confirmationError := none }, [])

/-- The observable parts of the care-plan fetch response in
`downloadCarePlan`: `ok`, the body text, and — when `JSON.parse`
succeeds on that text — the parsed object's optional `error` field. -/
structure ArtifactResponse where
  ok : Bool
  text : String
  parsedError : Option (Option String)
deriving DecidableEq

/-- Shallow embedding of `downloadCarePlan` (`src/lib/api.ts`): a
non-`ok` response throws an `ApiError` whose message prefers the parsed
body's `error` field, then the raw text, then a fixed string, and whose
`detail` is the raw text. -/
def downloadCarePlan (r : ArtifactResponse) : Except ApiError Unit :=
  if r.ok then .ok ()
  else
    let base := "Failed to generate care plan"
    let errorMessage :=
      match r.parsedError with
      | some e => jsOr e base
      | none => jsOrStr r.text base
    .error { message := errorMessage, detail := some (.strD r.text) }

/-- One full submit-then-artifact cycle as observed by the caller. -/
structure SubmissionTrace where
  orderOutcome : Except ApiError Body
  artifactError : Option String
  orderRequests : List PatientOrderPayload
  artifactRequests : List (Option Int × Option Int)

/-- The success path of the orchestration (`submitForm` → `mutate` →
`createPatientOrder`, then the `useEffect` in `CarePlanForm` calling
`downloadCarePlanFile` with the stored identifiers): one order request is
sent; on success one artifact fetch follows, whose failure is caught by
`downloadCarePlanFile` (storing `apiError.message || fallback` as the
error) and swallowed by the effect's `.catch`; no path re-invokes the
order submission. -/
def runSubmission (data : FormData) (fetch : FetchResult)
    (artifact : ArtifactResponse) : SubmissionTrace :=
  let payload := buildPayload data false false false
  match createPatientOrder fetch with
  | .ok body =>
    match downloadCarePlan artifact with
    | .ok _ =>
      { orderOutcome := .ok body
        artifactError := none
        orderRequests := [payload]
        artifactRequests := [(body.patient_id, body.order_id)] }
    | .error e =>
      { orderOutcome := .ok body
        artifactError := some (jsOrStr e.message "Failed to generate care plan")
        orderRequests := [payload]
        artifactRequests := [(body.patient_id, body.order_id)] }
  | .error e =>
    { orderOutcome := .error e
      artifactError := none
      orderRequests := [payload]
      artifactRequests := [] }

/-- The validation entry of the spec's worked example:
`{type:"missing", loc:["body","mrn"], msg:"Field required"}`. -/
def mrnEntry : ValidationError :=
  { type := "missing", loc := [.strSeg "body", .strSeg "mrn"], msg := "Field required" }

/-- A concrete filled-in form, used to instantiate universally quantified
statements about the orchestration. -/
def sampleFormData : FormData :=
  { first_name := "Ada"
    last_name := "Lovelace"
    mrn := "000123"
    primary_diagnosis := "G70.00"
    additional_diagnoses := []
    records_text := "notes"
    referring_provider := "Dr. Smith"
    provider_npi := "1234567890"
    medication_name := "IVIG"
    medication_history := [] }

/-- A concrete well-formed success body. -/
def sampleSuccessBody : Body :=
  { message := some "Created", patient_id := some 1, order_id := some 2 }

/-- A concrete 200 JSON response delivering `sampleSuccessBody`. -/
def sampleSuccessResponse : HttpResponse :=
  { status := 200
    statusText := "OK"
    contentType := some "application/json"
    body := .parsed sampleSuccessBody }

/-- A concrete failing care-plan fetch response (non-ok, non-JSON text
body). -/
def sampleArtifactFailure : ArtifactResponse :=
  { ok := false, text := "boom", parsedError := none }


/-- Claim C1: a 422 response whose body carries `requires_confirmation:
true` together with an `issues` object is classified as
confirmation-required with the issues copied verbatim, whatever else the
body holds — in particular even when `detail` is a validation-style
array — and when the top-level marker is absent the same shape nested
inside `detail` is probed as an ordered fallback. -/
theorem confirmation_priority_422 (st : String) (msg : Option String)
    (det : Option DetailVal) (i : ConfirmationIssues) (pid oid : Option Int) :
    createPatientOrder (.response
        { status := 422, statusText := st, contentType := some "application/json",
          body := .parsed { message := msg, detail := det,
                            requires_confirmation := some true, issues := some i,
                            patient_id := pid, order_id := oid } })
      = .error { message := confirmationRequiredMessage,
                 detail := some (.confirmationD
                   { requires_confirmation := true, issues := i }) }
    ∧ ∀ (i' : ConfirmationIssues),
      createPatientOrder (.response
          { status := 422, statusText := st, contentType := some "application/json",
            body := .parsed { message := msg, detail := some (.objD (some true) (some i')),
                              requires_confirmation := none, issues := none,
                              patient_id := pid, order_id := oid } })
        = .error { message := confirmationRequiredMessage,
                   detail := some (.confirmationD
                     { requires_confirmation := true, issues := i' }) } :=
  ⟨rfl, fun _ => rfl⟩

/-- Claim C2, counterexample: a 422 body carrying the confirmation marker
with an `issues` object in which all three sub-issues are absent IS
classified as confirmation-required, with an empty issue set — refuting
the claim that such a body is never classified as confirmation-required. -/
theorem confirmation_empty_issues_cex :
    createPatientOrder (.response
        { status := 422, statusText := "Unprocessable Entity",
          contentType := some "application/json",
          body := .parsed { requires_confirmation := some true,
                            issues := some { patient := none, provider := none,
                                             order := none } } })
      = .error { message := confirmationRequiredMessage,
                 detail := some (.confirmationD
                   { requires_confirmation := true,
                     issues := { patient := none, provider := none, order := none } }) } :=
  rfl

/-- Claim C2, amended: the classifier emits the confirmation-required
outcome whenever the marker is true and an `issues` field is present,
even when all three sub-issues are absent — the emitted issue set may be
empty, so the never-empty invariant does not hold on the code. -/
theorem confirmation_empty_issues_allowed (st : String) (msg : Option String)
    (pid oid : Option Int) :
    createPatientOrder (.response
        { status := 422, statusText := st, contentType := some "application/json",
          body := .parsed { message := msg, detail := none,
                            requires_confirmation := some true,
                            issues := some { patient := none, provider := none,
                                             order := none },
                            patient_id := pid, order_id := oid } })
      = .error { message := confirmationRequiredMessage,
                 detail := some (.confirmationD
                   { requires_confirmation := true,
                     issues := { patient := none, provider := none, order := none } }) } :=
  rfl

/-- Claim C3, counterexample: on the claim's own single-entry example the
classifier's message is `"Validation error: mrn: Field required"`, not
exactly `"mrn: Field required"` as claimed. -/
theorem validation_message_exact_cex :
    createPatientOrder (.response
        { status := 422, statusText := "Unprocessable Entity",
          contentType := some "application/json",
          body := .parsed { detail := some (.arrD [mrnEntry]) } })
      = .error { message := "Validation error: mrn: Field required",
                 detail := some (.validationD [mrnEntry]) }
    ∧ ("Validation error: mrn: Field required" : String) ≠ "mrn: Field required" :=
  ⟨rfl, by decide⟩

/-- Claim C3, amended: for a markerless 422 whose `detail` is a validation
array, the classifier's message is the fixed prefix `"Validation error: "`
followed by the per-entry strings — leading `loc` segment dropped, the
rest joined with `.`, rendered `field: msg` — joined with `"; "`
(semicolon and space), in body order; on the single-entry example this
gives exactly `"Validation error: mrn: Field required"`. -/
theorem validation_message_format (st : String) (msg : Option String)
    (errs : List ValidationError) (pid oid : Option Int) :
    createPatientOrder (.response
        { status := 422, statusText := st, contentType := some "application/json",
          body := .parsed { message := msg, detail := some (.arrD errs),
                            requires_confirmation := none, issues := none,
                            patient_id := pid, order_id := oid } })
      = .error { message := "Validation error: " ++ String.intercalate "; "
                   (errs.map (fun e =>
                     String.intercalate "." ((e.loc.drop 1).map locSegToString)
                       ++ ": " ++ e.msg)),
                 detail := some (.validationD errs) }
    ∧ "Validation error: " ++ String.intercalate "; "
        ([mrnEntry].map (fun e =>
          String.intercalate "." ((e.loc.drop 1).map locSegToString) ++ ": " ++ e.msg))
      = "Validation error: mrn: Field required" :=
  ⟨rfl, by decide⟩

/-- Claim C4: confirming with stored issues containing exactly the
patient and order sub-issues produces exactly one resubmission whose
payload sets the patient and duplicate-order flags, leaves the provider
flag false, and agrees with the original (all-flags-false) payload on
every non-flag field; in general each flag is set iff the corresponding
sub-issue is present. -/
theorem confirm_proceed_flags (fd : FormData) (p : PatientIssue) (o : OrderIssue) :
    handleConfirmProceed
        (some { requires_confirmation := true,
                issues := { patient := some p, provider := none, order := some o } }) fd
      = [buildPayload fd true false true]
    ∧ (buildPayload fd true false true).confirm_patient_name_mismatch = true
    ∧ (buildPayload fd true false true).confirm_duplicate_order = true
    ∧ (buildPayload fd true false true).confirm_provider_name_mismatch = false
    ∧ eraseFlags (buildPayload fd true false true) = buildPayload fd false false false
    ∧ ∀ (ce : ConfirmationError),
        handleConfirmProceed (some ce) fd
          = [buildPayload fd ce.issues.patient.isSome ce.issues.provider.isSome
               ce.issues.order.isSome] :=
  ⟨rfl, rfl, rfl, rfl, rfl, fun _ => rfl⟩

/-- Claim C5: cancelling a pending confirmation clears exactly the stored
confirmation issues — the resulting state is idle (no confirmation error),
the form data and the stored error message are untouched, and no request
is sent. -/
theorem cancel_frame (ce : ConfirmationError) (fd : FormData) (er : Option String) :
    (handleCancel { confirmationError := some ce, formData := fd, error := er }).1
      = { confirmationError := none, formData := fd, error := er }
    ∧ (handleCancel { confirmationError := some ce, formData := fd, error := er }).2 = [] :=
  ⟨rfl, rfl⟩

/-- Claim C6: when the order creation succeeds and the subsequent
care-plan fetch fails, the recorded order outcome stays the successful
body, the artifact failure is surfaced as a separate stored message, and
exactly one order request (the original, all flags false) was ever sent —
no automatic retry. -/
theorem artifact_failure_keeps_success (data : FormData) (r : HttpResponse) (b : Body)
    (a : ArtifactResponse)
    (hjson : ctIsJson r.contentType = true) (hbody : r.body = .parsed b)
    (hok : respOk r.status = true) (hfail : a.ok = false) :
    (runSubmission data (.response r) a).orderOutcome = .ok b
    ∧ (runSubmission data (.response r) a).artifactError.isSome = true
    ∧ (runSubmission data (.response r) a).orderRequests
        = [buildPayload data false false false] := by
  obtain ⟨status, st, ct, body⟩ := r
  simp only at hjson hok hbody
  subst hbody
  refine ⟨?_, ?_, ?_⟩ <;>
    simp [runSubmission, createPatientOrder, hjson, hok, downloadCarePlan, hfail]

/-- Witness for claim C6, at a concrete 200 success followed by a failing
artifact fetch. -/
theorem artifact_failure_keeps_success_witness :
    (ctIsJson sampleSuccessResponse.contentType = true
      ∧ sampleSuccessResponse.body = .parsed sampleSuccessBody
      ∧ respOk sampleSuccessResponse.status = true
      ∧ sampleArtifactFailure.ok = false)
    ∧ ((runSubmission sampleFormData (.response sampleSuccessResponse)
          sampleArtifactFailure).orderOutcome = .ok sampleSuccessBody
      ∧ (runSubmission sampleFormData (.response sampleSuccessResponse)
          sampleArtifactFailure).artifactError.isSome = true
      ∧ (runSubmission sampleFormData (.response sampleSuccessResponse)
          sampleArtifactFailure).orderRequests
          = [buildPayload sampleFormData false false false]) :=
  ⟨⟨by decide, rfl, by decide, rfl⟩,
    artifact_failure_keeps_success sampleFormData sampleSuccessResponse sampleSuccessBody
      sampleArtifactFailure (by decide) rfl (by decide) rfl⟩

/-- Claim C7: when the fetch call itself throws, the classifier produces
the fixed network-error result (the spec's transport-failed outcome),
whose message is the dedicated network-error string; under the spec's
taxonomy this is transport-failed and in particular neither
request-rejected nor server-failed. -/
theorem transport_failure_classification (m : Option String) :
    createPatientOrder (.fetchError m) = .error (networkError m)
    ∧ (networkError m).message = networkErrorMessage
    ∧ specOutcomeClass (.fetchError m) = .transportFailed
    ∧ specOutcomeClass (.fetchError m) ≠ .requestRejected
    ∧ specOutcomeClass (.fetchError m) ≠ .serverFailed :=
  by refine ⟨rfl, rfl, rfl, ?_, ?_⟩ <;> simp [specOutcomeClass]

/-- Claim C8, counterexample: a JSON 500 body carrying both a string
`detail` and a `message` is rejected with the `message` field, not the
`detail` field as claimed. -/
theorem rejected_message_precedence_cex :
    createPatientOrder (.response
        { status := 500, statusText := "Internal Server Error",
          contentType := some "application/json",
          body := .parsed { message := some "M", detail := some (.strD "D") } })
      = .error { message := "M", detail := some (.strD "D") }
    ∧ ("M" : String) ≠ "D" :=
  ⟨rfl, by decide⟩

/-- Claim C8, amended: for a JSON non-2xx status other than 422 and 400,
the rejection message is taken from the body's `message` field when that
is present and non-empty — in particular when both are present `message`
wins over a string `detail` — falling back to `detail` when `message` is
absent and `detail` is a string, and otherwise to the synthesized
`Request failed with status N` string. -/
theorem rejected_message_precedence (status : Nat) (st : String) (m d : String)
    (hok : respOk status = false) (h422 : status ≠ 422) (h400 : status ≠ 400)
    (hm : m ≠ "") :
    createPatientOrder (.response
        { status := status, statusText := st, contentType := some "application/json",
          body := .parsed { message := some m, detail := some (.strD d) } })
      = .error { message := m, detail := some (.strD d) }
    ∧ createPatientOrder (.response
        { status := status, statusText := st, contentType := some "application/json",
          body := .parsed { message := none, detail := some (.strD d) } })
      = .error { message := d, detail := some (.strD d) }
    ∧ createPatientOrder (.response
        { status := status, statusText := st, contentType := some "application/json",
          body := .parsed { message := some m, detail := none } })
      = .error { message := m, detail := none }
    ∧ createPatientOrder (.response
        { status := status, statusText := st, contentType := some "application/json",
          body := .parsed {} })
      = .error { message := "Request failed with status " ++ toString status,
                 detail := some (.strD ("HTTP " ++ toString status ++ ": " ++ st)) } := by
  have hct : ctIsJson (some "application/json") = true := by decide
  refine ⟨?_, ?_, ?_, ?_⟩ <;>
    simp [createPatientOrder, notOkError, hct, hok, h422, h400, hm, jsOr, jsOrStr]

/-- Witness for claim C8 amended, at status 500 with message and string
detail both present. -/
theorem rejected_message_precedence_witness :
    (respOk 500 = false ∧ 500 ≠ 422 ∧ 500 ≠ 400 ∧ ("M" : String) ≠ "")
    ∧ createPatientOrder (.response
        { status := 500, statusText := "ISE", contentType := some "application/json",
          body := .parsed { message := some "M", detail := some (.strD "D") } })
      = .error { message := "M", detail := some (.strD "D") } :=
  ⟨⟨by decide, by decide, by decide, by decide⟩,
    (rejected_message_precedence 500 "ISE" "M" "D"
      (by decide) (by decide) (by decide) (by decide)).1⟩

/-- Claim C9: a received response whose content type is not JSON is
always turned into an error — never a success — regardless of status,
because the non-JSON branch runs before the `response.ok` check; at
status 200 with reason phrase OK the error message is exactly
`Server error (200): OK`. -/
theorem non_json_response_errors (r : HttpResponse)
    (hct : ctIsJson r.contentType = false) :
    createPatientOrder (.response r) = .error (nonJsonError r)
    ∧ createPatientOrder (.response
        { status := 200, statusText := "OK", contentType := some "text/html",
          body := .malformed })
      = .error { message := "Server error (200): OK",
                 detail := some (.strD "Received text/html instead of JSON") } := by
  constructor
  · simp [createPatientOrder, hct]
  · rfl

/-- Witness for claim C9, at a 200 HTML response. -/
theorem non_json_response_errors_witness :
    ctIsJson (some "text/html") = false
    ∧ createPatientOrder (.response
        { status := 200, statusText := "OK", contentType := some "text/html",
          body := .malformed })
      = .error (nonJsonError
          { status := 200, statusText := "OK", contentType := some "text/html",
            body := .malformed }) :=
  ⟨by decide,
    (non_json_response_errors
      { status := 200, statusText := "OK", contentType := some "text/html",
        body := .malformed } (by decide)).1⟩

/-- Claim C10: the hook's duplicate-entry toast branch is selected for
every non-confirmation error whose lowercased message contains `mrn`
(that branch is probed before the validation-error branch), while the
stored error message is the classifier's message unchanged; in
particular the 422 validation failure on the mrn field is labeled
`Duplicate Entry Detected`, not `Validation Error`. -/
theorem mrn_duplicate_hint (msg : String) (errs : List ValidationError)
    (hmrn : strIncludes (lowerStr msg) "mrn" = true) (hne : msg ≠ "") :
    handleMutateError { message := msg, detail := some (.validationD errs) }
      = .errorShown msg "Duplicate Entry Detected"
          (if strIncludes msg "MRN" then msg
           else "A record with this information already exists. " ++ msg)
    ∧ handleMutateError { message := "Validation error: mrn: Field required",
                          detail := some (.validationD [mrnEntry]) }
      = .errorShown "Validation error: mrn: Field required" "Duplicate Entry Detected"
          "A record with this information already exists. Validation error: mrn: Field required" := by
  constructor
  · simp [handleMutateError, selectToast, hne, hmrn]
  · decide

/-- Witness for claim C10, at the message produced by the mrn validation
failure. -/
theorem mrn_duplicate_hint_witness :
    (strIncludes (lowerStr "Validation error: mrn: Field required") "mrn" = true
      ∧ ("Validation error: mrn: Field required" : String) ≠ "")
    ∧ handleMutateError { message := "Validation error: mrn: Field required",
                          detail := some (.validationD [mrnEntry]) }
      = .errorShown "Validation error: mrn: Field required" "Duplicate Entry Detected"
          "A record with this information already exists. Validation error: mrn: Field required" :=
  ⟨⟨by decide, by decide⟩,
    (mrn_duplicate_hint "Validation error: mrn: Field required" [mrnEntry]
      (by decide) (by decide)).2⟩
